import Mathlib

/-!
Verification development for `src/codegen/llvm/llvm_module.cc`
(class `LLVMModuleNode`), a runtime module that owns a generated LLVM
code unit, lazily constructs a JIT execution engine, resolves exported
symbols to callable addresses, and serializes the unit to disk.

The C++ class is embedded shallowly: each member function becomes a pure
Lean function over an explicit `ModuleState`; fatal `CHECK`/`LOG(FATAL)`
conditions become `Except.error` results carrying the streamed message;
calls into LLVM (engine builder, target machine, file streams) are
parameters supplied through small environment records, since LLVM itself
is an external library.  Machine addresses are `Nat`, with `0` playing
the role of the null pointer.
-/

namespace LLVMModule

/-- A lowered function definition handed to `Init`; the module code only
reads its `name` field (`funcs[0]->name`). -/
structure LoweredFunc where
  name : String
deriving DecidableEq, Repr

/-- The in-memory `llvm::Module` (code unit) as observed by
`llvm_module.cc`: its target triple (`getTargetTriple`), the string
representation of its data layout (`getDataLayout`; two layouts are
identical exactly when their string representations coincide), its
printed textual IR (`print`), the names of the function definitions the
code generator added to it, and the registered main-function name. -/
structure CodeUnit where
  targetTriple : String
  dataLayout : String
  text : String
  functions : List String
  mainFunction : Option String
deriving DecidableEq, Repr

/-- The `llvm::ExecutionEngine` as observed by `llvm_module.cc`: a
symbol table backing `getFunctionAddress` and a global table backing
`getGlobalValueAddress`.  An address of `0` is the null pointer. -/
structure Engine where
  symbols : List (String × Nat)
  globals : List (String × Nat)
deriving DecidableEq, Repr

/-- `ee_->getFunctionAddress(name)`: the resolved address, `0` if the
symbol is absent. -/
def Engine.getFunctionAddress (e : Engine) (name : String) : Nat :=
  (e.symbols.lookup name).getD 0

/-- `ee_->getGlobalValueAddress(name)`: the resolved address of a global
value, `0` if absent. -/
def Engine.getGlobalValueAddress (e : Engine) (name : String) : Nat :=
  (e.globals.lookup name).getD 0

/-- `runtime::PackedFunc` as returned by `GetFunction`: either the empty
function `PackedFunc()` or a closure binding the resolved raw address
`faddr` and the shared reference `sptr_to_self` to the owning module
(the shared pointer is modelled as an opaque token). -/
inductive PackedFunc where
  | empty : PackedFunc
  | bound (faddr : Nat) (sptrToSelf : Nat) : PackedFunc
deriving DecidableEq, Repr

/-- The mutable fields of `LLVMModuleNode`: `target_triple_`, the engine
pointer `ee_` (null before `LazyInitJIT`), the raw observation pointer
`mptr_`, whether the target machine `tm_` is set, the owning pointer
`module_` (moved out of at `LazyInitJIT`), and a flag recording whether
the `__tvm_module_ctx` slot was written with `this` during JIT
initialization. -/
structure ModuleState where
  targetTriple : String
  ee : Option Engine
  mptr : Option CodeUnit
  tm : Bool
  module_ : Option CodeUnit
  ctxWritten : Bool
deriving DecidableEq, Repr

/-- Inputs that `LazyInitJIT` obtains from LLVM: the data-layout string
of the target machine chosen by `builder.selectTarget()`
(`tm->createDataLayout()`), and the engine produced by
`builder.create(tm)` (`none` models a null engine). -/
structure JITEnv where
  selectedLayout : String
  createdEngine : Option Engine
deriving DecidableEq, Repr

/-- Modelled from the spec: the well-known context-slot name
`runtime::symbol::tvm_module_ctx` — "a global pointer variable reserved
for pointer back to the owning module".  Its declaration lives in the
runtime headers, outside this file's source. -/
def tvm_module_ctx : String := "__tvm_module_ctx"

/-- The fatal message streamed by the data-layout `CHECK` in
`LazyInitJIT`, carrying both string representations. -/
def layoutMismatchMsg (moduleLayout engineLayout : String) : String :=
  "Data layout mismatch between module(" ++ moduleLayout ++
    ") and ExecutionEngine (" ++ engineLayout ++ ")"

/-- `LLVMModuleNode::LazyInitJIT` (sequential body): assert `ee_` is
still null, read the unit's target triple, move `module_` into an engine
builder, compare the layout of the builder-selected target machine with
the unit's recorded layout (fatal on mismatch), create the engine (fatal
on null), run static constructors, and store `this` into the
`__tvm_module_ctx` global when that slot resolves to a non-null
address. -/
def lazyInitJIT (env : JITEnv) (s : ModuleState) : Except String ModuleState :=
  if s.ee.isSome then
    .error "Check failed: ee_ == nullptr"
  else
    match s.mptr with
    | none => .error "null mptr_ dereference"
    | some u =>
      let target_triple := u.targetTriple
      if env.selectedLayout = u.dataLayout then
        match env.createdEngine with
        | none =>
          .error ("Failed to initialize git engine for " ++ target_triple)
        | some e =>
          let ctxAddr := e.getGlobalValueAddress tvm_module_ctx
          .ok { s with ee := some e, module_ := none,
                       ctxWritten := ctxAddr != 0 }
      else
        .error (layoutMismatchMsg u.dataLayout env.selectedLayout)

/-- `LLVMModuleNode::GetFunction`: lazily initialize the JIT if `ee_` is
null, resolve the symbol, return the empty `PackedFunc` on a null
address, otherwise a closure over the address and `sptr_to_self`. -/
def getFunction (env : JITEnv) (s : ModuleState) (name : String)
    (sptrToSelf : Nat) : Except String (ModuleState × PackedFunc) :=
  match (if s.ee.isSome then .ok s else lazyInitJIT env s) with
  | .error msg => .error msg
  | .ok s1 =>
    match s1.ee with
    | none => .error "null ee_ dereference"
    | some e =>
      let faddr := e.getFunctionAddress name
      if faddr = 0 then .ok (s1, PackedFunc.empty)
      else .ok (s1, PackedFunc.bound faddr sptrToSelf)

/-- `LLVMModuleNode::PreCompile`: lazily initialize the JIT if needed,
resolve the symbol, and fail fatally (`CHECK(faddr != nullptr)`) when
the address is null; otherwise return nothing. -/
def preCompile (env : JITEnv) (s : ModuleState) (name : String) :
    Except String ModuleState :=
  match (if s.ee.isSome then .ok s else lazyInitJIT env s) with
  | .error msg => .error msg
  | .ok s1 =>
    match s1.ee with
    | none => .error "null ee_ dereference"
    | some e =>
      let faddr := e.getFunctionAddress name
      if faddr = 0 then
        .error ("Failed to Precompile function " ++ name)
      else .ok s1

/-- The arguments of the fixed three-slot calling convention:
`args.values`, `args.type_codes`, `args.num_args`. -/
structure TVMArgs where
  values : List Nat
  typeCodes : List Int
  numArgs : Nat
deriving DecidableEq, Repr

/-- The host runtime as seen by an invocation: `call a args` is the
status code returned by the native function at address `a` applied to
`args`; `lastError` is the string `TVMGetLastError()` reports. -/
structure RuntimeEnv where
  call : Nat → TVMArgs → Int
  lastError : String

/-- Invocation of a `PackedFunc` returned by `GetFunction`: the bound
closure calls the resolved address on the value/type-code/count triple
and checks the status (`CHECK_EQ(ret, 0) << TVMGetLastError()`), so a
non-zero status becomes a fatal message carrying the host runtime's
last-recorded diagnostic string. -/
def invokePacked (env : RuntimeEnv) (f : PackedFunc) (args : TVMArgs) :
    Except String Unit :=
  match f with
  | .empty => .error "invoked null PackedFunc"
  | .bound faddr _ =>
    let ret := env.call faddr args
    if ret = 0 then .ok ()
    else .error ("Check failed: ret == 0: " ++ env.lastError)

/-- Modelled from the spec: `runtime::GetFileFormat` (the file-format
collaborator declared in `runtime/file_util.h`, outside this file's
source) resolves an output format from a path and an optional explicit
format string — the explicit format when non-empty, otherwise the
path's suffix. -/
def GetFileFormat (fileName format : String) : String :=
  if format = "" then
    match fileName.splitOn "." with
    | [] => ""
    | [_] => ""
    | parts => (parts.getLast?).getD ""
  else format

/-- Inputs that `SaveToFile` obtains from the OS and LLVM: the error
code and message of opening `llvm::raw_fd_ostream` on the destination,
and whether `tm_->addPassesToEmitFile` accepts `CGFT_ObjectFile`
(returns `0`). -/
structure FileEnv where
  openErrCode : Nat
  openErrMsg : String
  canEmitObjectFile : Bool
deriving DecidableEq, Repr

/-- The side effects `SaveToFile` can perform on the opened stream. -/
inductive SaveEvent where
  | emitObjectFile : SaveEvent
  | printModule : SaveEvent
  | writeBitcode : SaveEvent
deriving DecidableEq, Repr

/-- The fatal message streamed by the unrecognized-format branch of
`SaveToFile`, naming the file path and the format argument. -/
def unknownFormatMsg (fileName format : String) : String :=
  "Do not know how to save file " ++ fileName ++
    " with format=\x27" ++ format ++ "\x27"

/-- `LLVMModuleNode::SaveToFile`: resolve the format, open the
destination (fatal on a non-zero error code, message carrying the path
and the OS message), then dispatch: "o"/"obj" runs the object-file
emission pass (requires `tm_`; fatal if the target cannot emit),
"ll" prints the unit, "bc" writes bitcode, and any other resolved
format is fatal with a message naming the path and format string. -/
def saveToFile (env : FileEnv) (s : ModuleState) (fileName format : String) :
    Except String (List SaveEvent) :=
  let fmt := GetFileFormat fileName format
  if env.openErrCode ≠ 0 then
    .error ("Cannot open file: " ++ fileName ++ " " ++ env.openErrMsg)
  else if fmt = "o" ∨ fmt = "obj" then
    if s.tm = false then .error "Check failed: tm_"
    else if env.canEmitObjectFile = false then
      .error "Cannot emit target CGFT_ObjectFile"
    else
      match s.mptr with
      | none => .error "null mptr_ dereference"
      | some _ => .ok [SaveEvent.emitObjectFile]
  else if fmt = "ll" then
    match s.mptr with
    | none => .error "null mptr_ dereference"
    | some _ => .ok [SaveEvent.printModule]
  else if fmt = "bc" then
    match s.mptr with
    | none => .error "null mptr_ dereference"
    | some _ => .ok [SaveEvent.writeBitcode]
  else
    .error (unknownFormatMsg fileName format)

/-- `LLVMModuleNode::SaveToBinary`: always fatal. -/
def saveToBinary (_s : ModuleState) : Except String Unit :=
  .error "LLVMModule: SaveToBinary not supported"

/-- `LLVMModuleNode::GetSource`: assert the observation pointer is
non-null and return the unit's printed textual representation; the
`format` argument is never read. -/
def getSource (s : ModuleState) (format : String) : Except String String :=
  match s.mptr with
  | none => .error "Check failed: mptr_ != nullptr"
  | some u => .ok u.text

/-- Inputs that `Init` obtains from collaborators: whether
`GetLLVMTarget(target)` yields a target machine, the triple it reports,
and the metadata of the unit that `cg.Finish()` produces (data layout
and printable text are chosen by the code generator, not by
`llvm_module.cc`). -/
structure InitEnv where
  tmAvailable : Bool
  triple : String
  unitDataLayout : String
  unitText : String
deriving DecidableEq, Repr

/-- Modelled from the spec: the state of the external code generator
`CodeGenLLVM` as used by `Init` — it accumulates the function
definitions added to the unit and the registered main-function name
("a non-empty ordered sequence of function definitions" is turned into
the in-memory code unit by the external code generator). -/
structure CodeGen where
  modName : String
  functions : List LoweredFunc
  mainFunction : Option String
deriving DecidableEq, Repr

/-- Modelled from the spec: `cg.Init(name, ...)` starts a fresh unit
named after the given function, with no functions added yet. -/
def CodeGen.start (name : String) : CodeGen :=
  { modName := name, functions := [], mainFunction := none }

/-- Modelled from the spec: `cg.AddFunction(f)` adds one function
definition to the unit being generated. -/
def CodeGen.addFunction (cg : CodeGen) (f : LoweredFunc) : CodeGen :=
  { cg with functions := cg.functions ++ [f] }

/-- Modelled from the spec: `cg.AddMainFunction(name)` registers `name`
as the unit's main function. -/
def CodeGen.addMainFunction (cg : CodeGen) (name : String) : CodeGen :=
  { cg with mainFunction := some name }

/-- Modelled from the spec: `cg.Finish()` packages the accumulated
functions and main-function registration into the generated code unit,
whose layout and text come from the code generator. -/
def CodeGen.finish (cg : CodeGen) (env : InitEnv) : CodeUnit :=
  { targetTriple := env.triple
    dataLayout := env.unitDataLayout
    text := env.unitText
    functions := cg.functions.map LoweredFunc.name
    mainFunction := cg.mainFunction }

/-- `LLVMModuleNode::Init`: resolve the target, assert the definition
sequence is non-empty (`CHECK_NE(funcs.size(), 0U)`), start the code
generator on the first definition's name, add every definition, register
the first definition's name as the main function, finish the unit, and
keep both the owning pointer `module_` and the raw pointer `mptr_`. -/
def init (env : InitEnv) (funcs : List LoweredFunc) (_target : String) :
    Except String ModuleState :=
  match funcs with
  | [] => .error "Check failed: funcs.size() != 0U"
  | f0 :: _ =>
    let cg0 := CodeGen.start f0.name
    let cg1 := funcs.foldl CodeGen.addFunction cg0
    let cg2 := cg1.addMainFunction f0.name
    let u := cg2.finish env
    .ok { targetTriple := env.triple
          ee := none
          mptr := some u
          tm := env.tmAvailable
          module_ := some u
          ctxWritten := false }

/-- The observable teardown steps of `~LLVMModuleNode`. -/
inductive DtorEvent where
  | resetModule : DtorEvent
  | runStaticDestructors : DtorEvent
  | deleteEngine : DtorEvent
deriving DecidableEq, Repr

/-- `~LLVMModuleNode`: reset the owning module pointer, and when the
engine was constructed, run the unit's static destructors
(`runStaticConstructorsDestructors(true)`) and then delete the
engine. -/
def destroy (s : ModuleState) : List DtorEvent :=
  [DtorEvent.resetModule] ++
    (match s.ee with
     | none => []
     | some _ => [DtorEvent.runStaticDestructors, DtorEvent.deleteEngine])

/-!
Interleaving model of two threads calling `GetFunction` concurrently on
a freshly initialized module.  Each location is one atomic region of the
source; the only shared variables read or written are `ee_`, `module_`,
the mutex, and an instrumentation counter of construction sequences.

The crucial fidelity point: both the `if (ee_ == nullptr)` test in
`GetFunction` (line 48) and the `CHECK(ee_ == nullptr)` at the top of
`LazyInitJIT` (line 116) execute BEFORE `mutex_` is acquired (line 117),
so they are separate unlocked atomic reads here; the construction body
(lines 118-139) runs entirely under the lock and is one atomic region —
an abstraction that only over-approximates the synchronization the
source actually has. -/

/-- Program locations of one thread running `GetFunction`. -/
inductive ThreadLoc where
  | start : ThreadLoc
  | checkEE : ThreadLoc
  | acquireInit : ThreadLoc
  | releaseInit : ThreadLoc
  | acquireGet : ThreadLoc
  | lookup : ThreadLoc
  | finished : ThreadLoc
  | aborted : ThreadLoc
deriving DecidableEq, Repr

/-- Shared state of the two-thread run: whether `ee_` is non-null,
whether `module_` still owns the unit, whether `mutex_` is held, how
many times the construction body ran, whether some construction ran
after `module_` had already been moved away, and both program
counters. -/
structure RaceState where
  eeBuilt : Bool
  modulePresent : Bool
  lockHeld : Bool
  constructions : Nat
  builtFromMovedModule : Bool
  t1 : ThreadLoc
  t2 : ThreadLoc
deriving DecidableEq, Repr

/-- One atomic step of a thread at location `loc`: `none` when the
thread is blocked on the mutex or has finished/aborted.
`start` is the unlocked `if (ee_ == nullptr)` in `GetFunction`;
`checkEE` is the unlocked `CHECK(ee_ == nullptr)` in `LazyInitJIT`
(fatal abort when the engine exists by the time it runs);
`acquireInit` takes the mutex and runs the whole construction body
(move `module_`, build, set `ee_`) atomically; `releaseInit` leaves
`LazyInitJIT`; `acquireGet`/`lookup` are `GetFunction`'s own
lock-guarded symbol resolution. -/
def stepThread (loc : ThreadLoc) (g : RaceState) :
    Option (ThreadLoc × RaceState) :=
  match loc with
  | .start =>
    some (if g.eeBuilt then .acquireGet else .checkEE, g)
  | .checkEE =>
    if g.eeBuilt then some (.aborted, g) else some (.acquireInit, g)
  | .acquireInit =>
    if g.lockHeld then none
    else
      some (.releaseInit,
        { g with lockHeld := true
                 constructions := g.constructions + 1
                 builtFromMovedModule :=
                   g.builtFromMovedModule || !g.modulePresent
                 modulePresent := false
                 eeBuilt := true })
  | .releaseInit =>
    some (.acquireGet, { g with lockHeld := false })
  | .acquireGet =>
    if g.lockHeld then none
    else some (.lookup, { g with lockHeld := true })
  | .lookup =>
    some (.finished, { g with lockHeld := false })
  | .finished => none
  | .aborted => none

/-- Run the scheduled thread one step (`true` = thread 1); a blocked or
finished thread leaves the state unchanged. -/
def stepSched (g : RaceState) (tid : Bool) : RaceState :=
  if tid then
    match stepThread g.t1 g with
    | none => g
    | some (l, g1) => { g1 with t1 := l }
  else
    match stepThread g.t2 g with
    | none => g
    | some (l, g1) => { g1 with t2 := l }

/-- Run a whole schedule of thread choices. -/
def runSched (g : RaceState) (sched : List Bool) : RaceState :=
  sched.foldl stepSched g

/-- Both threads about to call `GetFunction` on a module fresh out of
`Init`: no engine, unit owned, mutex free. -/
def raceInit : RaceState :=
  { eeBuilt := false
    modulePresent := true
    lockHeld := false
    constructions := 0
    builtFromMovedModule := false
    t1 := ThreadLoc.start
    t2 := ThreadLoc.start }

/-- Containment of `pat` inside `s` as a substring. -/
def containsStr (s pat : String) : Prop :=
  ∃ pre post, s = pre ++ pat ++ post

/-! Concrete sample values used by the witness theorems. -/

/-- A sample generated code unit. -/
def sampleUnit : CodeUnit :=
  { targetTriple := "x86_64-pc-linux-gnu"
    dataLayout := "e-m:e-i64:64"
    text := "define i32 main"
    functions := ["main"]
    mainFunction := some "main" }

/-- A sample engine exporting `main` and the module-context global. -/
def sampleEngine : Engine :=
  { symbols := [("main", 4096)]
    globals := [(tvm_module_ctx, 8192)] }

/-- A sample engine exporting `main` but no module-context global. -/
def sampleEngineNoCtx : Engine :=
  { symbols := [("main", 4096)], globals := [] }

/-- The module right after `Init`: no engine yet, unit owned. -/
def sampleState0 : ModuleState :=
  { targetTriple := "x86_64-pc-linux-gnu"
    ee := none
    mptr := some sampleUnit
    tm := true
    module_ := some sampleUnit
    ctxWritten := false }

/-- The module after a successful `LazyInitJIT`. -/
def sampleStateReady : ModuleState :=
  { sampleState0 with
      ee := some sampleEngine
      module_ := none
      ctxWritten := true }

/-- A JIT environment whose selected layout matches the unit. -/
def sampleEnvOk : JITEnv :=
  { selectedLayout := "e-m:e-i64:64", createdEngine := some sampleEngine }

/-- A JIT environment whose selected layout differs from the unit. -/
def sampleEnvMismatch : JITEnv :=
  { selectedLayout := "e-m:o-i64:64", createdEngine := some sampleEngine }

/-- A JIT environment building an engine without the context slot. -/
def sampleEnvNoCtx : JITEnv :=
  { selectedLayout := "e-m:e-i64:64", createdEngine := some sampleEngineNoCtx }

/-- A file environment where opening succeeds and the target can emit
object code. -/
def sampleFileEnv : FileEnv :=
  { openErrCode := 0, openErrMsg := "", canEmitObjectFile := true }

/-- A host runtime where every native call reports status `1` and the
last recorded diagnostic is a fixed string. -/
def sampleRuntimeFail : RuntimeEnv :=
  { call := fun _ _ => 1, lastError := "TVMError: argument mismatch" }

/-- Sample packed-call arguments. -/
def sampleArgs : TVMArgs :=
  { values := [3, 5], typeCodes := [0, 0], numArgs := 2 }

/-! Helper lemmas shared by the claim theorems. -/

/-- The layout-mismatch message contains the module's layout string. -/
theorem layoutMismatchMsg_contains_moduleLayout (dl l : String) :
    containsStr (layoutMismatchMsg dl l) dl :=
  ⟨"Data layout mismatch between module(",
   ") and ExecutionEngine (" ++ l ++ ")",
   by simp [layoutMismatchMsg, String.append_assoc]⟩

/-- The layout-mismatch message contains the engine's layout string. -/
theorem layoutMismatchMsg_contains_engineLayout (dl l : String) :
    containsStr (layoutMismatchMsg dl l) l :=
  ⟨"Data layout mismatch between module(" ++ dl ++ ") and ExecutionEngine (",
   ")",
   by simp [layoutMismatchMsg, String.append_assoc]⟩

/-- The unrecognized-format message contains the file path. -/
theorem unknownFormatMsg_contains_path (fileName format : String) :
    containsStr (unknownFormatMsg fileName format) fileName :=
  ⟨"Do not know how to save file ",
   " with format=\x27" ++ format ++ "\x27",
   by simp [unknownFormatMsg, String.append_assoc]⟩

/-- The unrecognized-format message contains the format string. -/
theorem unknownFormatMsg_contains_format (fileName format : String) :
    containsStr (unknownFormatMsg fileName format) format :=
  ⟨"Do not know how to save file " ++ fileName ++ " with format=\x27",
   "\x27",
   by simp [unknownFormatMsg, String.append_assoc]⟩

/-- Folding `AddFunction` over a list appends the list to the generated
functions. -/
theorem foldl_addFunction_functions (l : List LoweredFunc) (cg : CodeGen) :
    (l.foldl CodeGen.addFunction cg).functions = cg.functions ++ l := by
  induction l generalizing cg with
  | nil => simp
  | cons f t ih => simp [CodeGen.addFunction, ih]

/-- Folding `AddFunction` never touches the main-function
registration. -/
theorem foldl_addFunction_mainFunction (l : List LoweredFunc) (cg : CodeGen) :
    (l.foldl CodeGen.addFunction cg).mainFunction = cg.mainFunction := by
  induction l generalizing cg with
  | nil => rfl
  | cons f t ih => simp [CodeGen.addFunction, ih]

/-! The claim theorems. -/

/-- C1: the claim states that concurrent first calls to `GetFunction`
perform exactly one construction sequence (construction counter equal
to 1) and that every caller receives a valid or correctly-absent
result.  The code violates this: both the `ee_` null test in
`GetFunction` and the `CHECK(ee_ == nullptr)` in `LazyInitJIT` run
before the mutex is acquired, so in the interleaving model there is a
schedule under which the construction body runs twice — the second time
after `module_` has already been moved into the first engine builder —
and another schedule under which the second thread trips the
`CHECK(ee_ == nullptr)` assertion and aborts. -/
theorem getFunction_concurrent_double_construction :
    ((runSched raceInit
        [true, false, true, false, true, true, false, false,
         true, true, false, false]).constructions = 2 ∧
     (runSched raceInit
        [true, false, true, false, true, true, false, false,
         true, true, false, false]).builtFromMovedModule = true) ∧
    (runSched raceInit [false, true, true, true, true, false]).t2 =
      ThreadLoc.aborted := by
  decide

/-- C2: during lazy engine construction, when the layout selected by
the engine builder differs from the layout recorded in the code unit,
`LazyInitJIT` fails fatally with a message containing both layout
string representations; the failure does not depend on what
`builder.create` would return, so the check happens before the engine
is created. -/
theorem lazyInitJIT_layout_mismatch_fatal (env : JITEnv) (s : ModuleState)
    (u : CodeUnit) (hee : s.ee = none) (hm : s.mptr = some u)
    (hne : env.selectedLayout ≠ u.dataLayout) :
    lazyInitJIT env s =
      .error (layoutMismatchMsg u.dataLayout env.selectedLayout) ∧
    containsStr (layoutMismatchMsg u.dataLayout env.selectedLayout)
      u.dataLayout ∧
    containsStr (layoutMismatchMsg u.dataLayout env.selectedLayout)
      env.selectedLayout := by
  refine ⟨?_, layoutMismatchMsg_contains_moduleLayout _ _,
         layoutMismatchMsg_contains_engineLayout _ _⟩
  simp [lazyInitJIT, hee, hm, hne]

/-- Witness for C2 at a concrete mismatching environment. -/
theorem lazyInitJIT_layout_mismatch_fatal_witness :
    (sampleState0.ee = none ∧ sampleState0.mptr = some sampleUnit ∧
     sampleEnvMismatch.selectedLayout ≠ sampleUnit.dataLayout) ∧
    (lazyInitJIT sampleEnvMismatch sampleState0 =
       .error (layoutMismatchMsg sampleUnit.dataLayout
         sampleEnvMismatch.selectedLayout) ∧
     containsStr (layoutMismatchMsg sampleUnit.dataLayout
       sampleEnvMismatch.selectedLayout) sampleUnit.dataLayout ∧
     containsStr (layoutMismatchMsg sampleUnit.dataLayout
       sampleEnvMismatch.selectedLayout) sampleEnvMismatch.selectedLayout) :=
  ⟨⟨rfl, rfl, by decide⟩,
   lazyInitJIT_layout_mismatch_fatal sampleEnvMismatch sampleState0
     sampleUnit rfl rfl (by decide)⟩

/-- C3: with the engine constructed, `GetFunction` returns the empty
`PackedFunc` for every name the engine resolves to a null address,
never an error, and for every name that resolves it returns a handle
closing over the resolved address and the shared reference to the
owning module. -/
theorem getFunction_absent_or_bound (env : JITEnv) (s : ModuleState)
    (e : Engine) (name : String) (sptr : Nat) (hee : s.ee = some e) :
    (e.getFunctionAddress name = 0 →
      getFunction env s name sptr = .ok (s, PackedFunc.empty)) ∧
    (e.getFunctionAddress name ≠ 0 →
      getFunction env s name sptr =
        .ok (s, PackedFunc.bound (e.getFunctionAddress name) sptr)) := by
  constructor <;> intro h <;> simp [getFunction, hee, h]

/-- Witness for C3: an unexported name yields the empty function; an
exported name yields a handle over its address and the module
reference. -/
theorem getFunction_absent_or_bound_witness :
    (sampleStateReady.ee = some sampleEngine ∧
     sampleEngine.getFunctionAddress "nonexistent" = 0 ∧
     sampleEngine.getFunctionAddress "main" ≠ 0) ∧
    getFunction sampleEnvOk sampleStateReady "nonexistent" 7 =
      .ok (sampleStateReady, PackedFunc.empty) ∧
    getFunction sampleEnvOk sampleStateReady "main" 7 =
      .ok (sampleStateReady, PackedFunc.bound 4096 7) :=
  ⟨⟨rfl, by decide, by decide⟩,
   (getFunction_absent_or_bound sampleEnvOk sampleStateReady sampleEngine
      "nonexistent" 7 rfl).1 (by decide),
   (getFunction_absent_or_bound sampleEnvOk sampleStateReady sampleEngine
      "main" 7 rfl).2 (by decide)⟩

/-- C4: with the engine constructed, `PreCompile` fails fatally exactly
when the named symbol resolves to a null address (the assertion message
names the symbol); when the symbol resolves, it completes returning
nothing but the unchanged state. -/
theorem preCompile_fatal_iff_unresolved (env : JITEnv) (s : ModuleState)
    (e : Engine) (name : String) (hee : s.ee = some e) :
    (e.getFunctionAddress name = 0 →
      preCompile env s name =
        .error ("Failed to Precompile function " ++ name)) ∧
    (e.getFunctionAddress name ≠ 0 → preCompile env s name = .ok s) := by
  constructor <;> intro h <;> simp [preCompile, hee, h]

/-- Witness for C4 at an unresolvable and a resolvable name. -/
theorem preCompile_fatal_iff_unresolved_witness :
    (sampleStateReady.ee = some sampleEngine ∧
     sampleEngine.getFunctionAddress "nonexistent" = 0 ∧
     sampleEngine.getFunctionAddress "main" ≠ 0) ∧
    preCompile sampleEnvOk sampleStateReady "nonexistent" =
      .error ("Failed to Precompile function " ++ "nonexistent") ∧
    preCompile sampleEnvOk sampleStateReady "main" = .ok sampleStateReady :=
  ⟨⟨rfl, by decide, by decide⟩,
   (preCompile_fatal_iff_unresolved sampleEnvOk sampleStateReady
      sampleEngine "nonexistent" rfl).1 (by decide),
   (preCompile_fatal_iff_unresolved sampleEnvOk sampleStateReady
      sampleEngine "main" rfl).2 (by decide)⟩

/-- C5: invoking a bound handle whose native function reports status 0
completes without error, and a non-zero status becomes a fatal message
that carries the host runtime's last-recorded diagnostic string. -/
theorem invokePacked_status_bridge (env : RuntimeEnv) (faddr sptr : Nat)
    (args : TVMArgs) :
    (env.call faddr args = 0 →
      invokePacked env (PackedFunc.bound faddr sptr) args = .ok ()) ∧
    (env.call faddr args ≠ 0 →
      ∃ msg,
        invokePacked env (PackedFunc.bound faddr sptr) args = .error msg ∧
        containsStr msg env.lastError) := by
  constructor
  · intro h
    simp [invokePacked, h]
  · intro h
    refine ⟨"Check failed: ret == 0: " ++ env.lastError,
      by simp [invokePacked, h], "Check failed: ret == 0: ", "", ?_⟩
    simp [String.append_empty]

/-- Witness for C5: a native function that reports status 1 makes the
bridge fail with the runtime's diagnostic string in the message. -/
theorem invokePacked_status_bridge_witness :
    (sampleRuntimeFail.call 4096 sampleArgs ≠ 0) ∧
    (∃ msg,
      invokePacked sampleRuntimeFail (PackedFunc.bound 4096 7) sampleArgs =
        .error msg ∧
      containsStr msg sampleRuntimeFail.lastError) :=
  ⟨by decide,
   (invokePacked_status_bridge sampleRuntimeFail 4096 7 sampleArgs).2
     (by decide)⟩

/-- C6: with the destination opened, `SaveToFile` recognizes exactly
the resolved formats "o"/"obj" (object emission, requiring `tm_` to be
set), "ll" (textual printing), and "bc" (bitcode); any other resolved
format is fatal with a message containing the offending path and the
format string. -/
theorem saveToFile_format_dispatch (env : FileEnv) (s : ModuleState)
    (u : CodeUnit) (fileName format : String)
    (hopen : env.openErrCode = 0) (hm : s.mptr = some u) :
    (GetFileFormat fileName format = "o" ∨
       GetFileFormat fileName format = "obj" →
      s.tm = true → env.canEmitObjectFile = true →
      saveToFile env s fileName format = .ok [SaveEvent.emitObjectFile]) ∧
    (GetFileFormat fileName format = "o" ∨
       GetFileFormat fileName format = "obj" →
      s.tm = false →
      saveToFile env s fileName format = .error "Check failed: tm_") ∧
    (GetFileFormat fileName format = "ll" →
      saveToFile env s fileName format = .ok [SaveEvent.printModule]) ∧
    (GetFileFormat fileName format = "bc" →
      saveToFile env s fileName format = .ok [SaveEvent.writeBitcode]) ∧
    (GetFileFormat fileName format ≠ "o" →
      GetFileFormat fileName format ≠ "obj" →
      GetFileFormat fileName format ≠ "ll" →
      GetFileFormat fileName format ≠ "bc" →
      saveToFile env s fileName format =
        .error (unknownFormatMsg fileName format) ∧
      containsStr (unknownFormatMsg fileName format) fileName ∧
      containsStr (unknownFormatMsg fileName format) format) := by
  refine ⟨?_, ?_, ?_, ?_, ?_⟩
  · intro hfmt htm hemit
    rcases hfmt with h | h <;> simp [saveToFile, h, hopen, hm, htm, hemit]
  · intro hfmt htm
    rcases hfmt with h | h <;> simp [saveToFile, h, hopen, hm, htm]
  · intro h
    simp [saveToFile, h, hopen, hm]
  · intro h
    simp [saveToFile, h, hopen, hm]
  · intro h1 h2 h3 h4
    refine ⟨by simp [saveToFile, h1, h2, h3, h4, hopen, hm],
      unknownFormatMsg_contains_path _ _, unknownFormatMsg_contains_format _ _⟩

/-- Witness for C6: format "ll" prints the unit; an unrecognized
explicit format "xyz" is fatal with path and format in the message. -/
theorem saveToFile_format_dispatch_witness :
    (sampleFileEnv.openErrCode = 0 ∧ sampleStateReady.mptr = some sampleUnit ∧
     GetFileFormat "out.bin" "xyz" ≠ "o" ∧ GetFileFormat "out.bin" "xyz" ≠ "obj" ∧
     GetFileFormat "out.bin" "xyz" ≠ "ll" ∧ GetFileFormat "out.bin" "xyz" ≠ "bc" ∧
     GetFileFormat "out.ll" "ll" = "ll") ∧
    (saveToFile sampleFileEnv sampleStateReady "out.ll" "ll" =
       .ok [SaveEvent.printModule]) ∧
    (saveToFile sampleFileEnv sampleStateReady "out.bin" "xyz" =
       .error (unknownFormatMsg "out.bin" "xyz") ∧
     containsStr (unknownFormatMsg "out.bin" "xyz") "out.bin" ∧
     containsStr (unknownFormatMsg "out.bin" "xyz") "xyz") :=
  ⟨⟨rfl, rfl, by decide, by decide, by decide, by decide, by decide⟩,
   (saveToFile_format_dispatch sampleFileEnv sampleStateReady sampleUnit
      "out.ll" "ll" rfl rfl).2.2.1 (by decide),
   (saveToFile_format_dispatch sampleFileEnv sampleStateReady sampleUnit
      "out.bin" "xyz" rfl rfl).2.2.2.2
     (by decide) (by decide) (by decide) (by decide)⟩

/-- C7: `Init` fails fatally on an empty definition sequence, and for
every non-empty sequence it produces a module whose unit contains
exactly the given definitions, in order, with the first definition's
name registered as the unit's main function. -/
theorem init_empty_fatal_and_populates (env : InitEnv) (f0 : LoweredFunc)
    (rest : List LoweredFunc) (target : String) :
    init env ([] : List LoweredFunc) target =
      .error "Check failed: funcs.size() != 0U" ∧
    ∃ s u, init env (f0 :: rest) target = .ok s ∧ s.mptr = some u ∧
      u.functions = (f0 :: rest).map LoweredFunc.name ∧
      u.mainFunction = some f0.name := by
  refine ⟨rfl, ?_⟩
  refine ⟨_, _, rfl, rfl, ?_, ?_⟩
  · simp [CodeGen.finish, CodeGen.addMainFunction, CodeGen.addFunction,
      foldl_addFunction_functions, CodeGen.start]
  · simp [CodeGen.finish, CodeGen.addMainFunction]

/-- C8: when the engine was constructed, the destructor's event trace
runs the unit's static destructors strictly before the engine is
deleted. -/
theorem destroy_dtors_before_engine_delete (s : ModuleState) (e : Engine)
    (hee : s.ee = some e) :
    ∃ i j : Nat, i < j ∧
      (destroy s)[i]? = some DtorEvent.runStaticDestructors ∧
      (destroy s)[j]? = some DtorEvent.deleteEngine := by
  refine ⟨1, 2, by omega, ?_, ?_⟩ <;> simp [destroy, hee]

/-- Witness for C8 on a module with a constructed engine. -/
theorem destroy_dtors_before_engine_delete_witness :
    (sampleStateReady.ee = some sampleEngine) ∧
    (∃ i j : Nat, i < j ∧
      (destroy sampleStateReady)[i]? = some DtorEvent.runStaticDestructors ∧
      (destroy sampleStateReady)[j]? = some DtorEvent.deleteEngine) :=
  ⟨rfl, destroy_dtors_before_engine_delete sampleStateReady sampleEngine rfl⟩

/-- C9: when the layouts agree and the builder yields an engine,
`LazyInitJIT` succeeds and writes the module pointer into the
`__tvm_module_ctx` slot exactly when that global resolves to a non-null
address; when the slot is absent construction still completes with no
error. -/
theorem lazyInitJIT_ctx_slot (env : JITEnv) (s : ModuleState) (u : CodeUnit)
    (e : Engine) (hee : s.ee = none) (hm : s.mptr = some u)
    (hl : env.selectedLayout = u.dataLayout)
    (hce : env.createdEngine = some e) :
    ∃ s1, lazyInitJIT env s = .ok s1 ∧ s1.ee = some e ∧
      s1.ctxWritten = (e.getGlobalValueAddress tvm_module_ctx != 0) := by
  refine ⟨({ s with
              ee := some e
              module_ := none
              ctxWritten := e.getGlobalValueAddress tvm_module_ctx != 0 }),
    ?_, rfl, rfl⟩
  simp [lazyInitJIT, hee, hm, hl, hce]

/-- Witness for C9: an engine without the context slot still yields a
successful construction, with no context write recorded. -/
theorem lazyInitJIT_ctx_slot_witness :
    (sampleState0.ee = none ∧ sampleState0.mptr = some sampleUnit ∧
     sampleEnvNoCtx.selectedLayout = sampleUnit.dataLayout ∧
     sampleEnvNoCtx.createdEngine = some sampleEngineNoCtx ∧
     sampleEngineNoCtx.getGlobalValueAddress tvm_module_ctx = 0) ∧
    (∃ s1, lazyInitJIT sampleEnvNoCtx sampleState0 = .ok s1 ∧
      s1.ee = some sampleEngineNoCtx ∧
      s1.ctxWritten =
        (sampleEngineNoCtx.getGlobalValueAddress tvm_module_ctx != 0)) :=
  ⟨⟨rfl, rfl, rfl, rfl, by decide⟩,
   lazyInitJIT_ctx_slot sampleEnvNoCtx sampleState0 sampleUnit
     sampleEngineNoCtx rfl rfl rfl rfl⟩

/-- C10: `GetSource` ignores its format argument — any two format
strings yield the same result on the same state, namely the unit's full
textual representation, whenever the observed unit pointer is
non-null. -/
theorem getSource_ignores_format (s : ModuleState) (u : CodeUnit)
    (hm : s.mptr = some u) (f1 f2 : String) :
    getSource s f1 = getSource s f2 ∧ getSource s f1 = .ok u.text := by
  simp [getSource, hm]

/-- Witness for C10 at two different format strings. -/
theorem getSource_ignores_format_witness :
    (sampleStateReady.mptr = some sampleUnit) ∧
    (getSource sampleStateReady "ll" = getSource sampleStateReady "xyz" ∧
     getSource sampleStateReady "ll" = .ok sampleUnit.text) :=
  ⟨rfl, getSource_ignores_format sampleStateReady sampleUnit rfl "ll" "xyz"⟩

end LLVMModule
